import Mathlib

/-!
Shallow embedding of `selfdrive/car/other/{values.py, interface.py}`:
the parameter-derivation function `CarInterface.get_params` and the
per-cycle state translation / safety-event engine `CarInterface.update`.

Numbers that the Python code handles as floats are modelled as rationals
(`ℚ`); fingerprints (Python dicts from message id to length) are modelled
as association lists over `ℕ`.  Python code that can raise is modelled
with `Except String`; a Python local that may be read before assignment
(`UnboundLocalError`) is modelled as an `Option` that starts out `none`.
-/

/-! ### values.py -/

namespace CAR

def OLD_CAR : String := "OLD_CARS"

end CAR

namespace ECU

def CAM : ℕ := 0

def DSU : ℕ := 1

def APGS : ℕ := 2

end ECU

/-- `ECU_FINGERPRINT` from values.py: the diagnostic-response message ids
expected from each ECU (0x2e4 = 740 steer torque cmd, 0x343 = 835 accel cmd,
0x835 = 2101 angle cmd). -/
def ECU_FINGERPRINT (ecu : ℕ) : List ℕ :=
  if ecu = ECU.CAM then [0x2e4]
  else if ecu = ECU.DSU then [0x343]
  else [0x835]

def NO_DSU_CAR : List String := []

def TSS2_CAR : List String := []

def NO_STOP_TIMER_CAR : List String := []

def STEER_THRESHOLD : ℚ := 100

/-! ### Conversions and helpers from outside src/

`selfdrive/config.py` and `selfdrive/car/__init__.py` are not among the
sources; the constants and helpers below are the standard unit conversions
and the scaling formulas the spec describes. -/

namespace CV

/-- Modelled from the spec: kilometres-per-hour to metres-per-second
conversion used for the cruise set speed ("cruise speed from km/h to m/s"). -/
def KPH_TO_MS : ℚ := 10 / 36

/-- Modelled from the spec: miles-per-hour to metres-per-second conversion
used for the fixed low-speed enable floor (19 mph). -/
def MPH_TO_MS : ℚ := 44704 / 100000

/-- Modelled from the spec: pounds-to-kilograms conversion used for the
per-identity base mass constant. -/
def LB_TO_KG : ℚ := 453592 / 1000000

end CV

/-- Modelled from the spec: standard cargo mass added to every vehicle mass
(`STD_CARGO_KG` in `selfdrive/car/__init__.py`, which is not in src/). -/
def STD_CARGO_KG : ℚ := 136

/-- Modelled from the spec: reference-vehicle (civic) constants for the
scale-by-mass-and-wheelbase formulas ("tire stiffness and rotational inertia
are always derived from mass and wheelbase via fixed scaling relative to a
reference vehicle"). -/
def REF_MASS : ℚ := 1326 + STD_CARGO_KG

def REF_WHEELBASE : ℚ := 27 / 10

def REF_ROTATIONAL_INERTIA : ℚ := 2500

def REF_TIRE_STIFFNESS_FRONT : ℚ := 192150

def REF_TIRE_STIFFNESS_REAR : ℚ := 202500

/-- Modelled from the spec: `scale_rot_inertia` from
`selfdrive/car/__init__.py` (not in src/) — rotational inertia scaled by
mass and wheelbase relative to the reference vehicle. -/
def scale_rot_inertia (mass wheelbase : ℚ) : ℚ :=
  REF_ROTATIONAL_INERTIA * mass * wheelbase ^ 2 / (REF_MASS * REF_WHEELBASE ^ 2)

/-- Modelled from the spec: `scale_tire_stiffness` from
`selfdrive/car/__init__.py` (not in src/) — front/rear tire stiffness scaled
by mass and centre-of-gravity position relative to the reference vehicle. -/
def scale_tire_stiffness (mass wheelbase centerToFront tire_stiffness_factor : ℚ) :
    ℚ × ℚ :=
  let center_to_rear := wheelbase - centerToFront
  let front := (REF_TIRE_STIFFNESS_FRONT * tire_stiffness_factor) * mass / REF_MASS *
      (center_to_rear / wheelbase) / (REF_WHEELBASE / 2)
  let rear := (REF_TIRE_STIFFNESS_REAR * tire_stiffness_factor) * mass / REF_MASS *
      (centerToFront / wheelbase) / (REF_WHEELBASE / 2)
  (front, rear)

/-! ### Fingerprints -/

/-- A fingerprint for one bus: a Python dict from message id to message
length, as an association list. -/
def Fingerprint : Type := List (ℕ × ℕ)

/-- `msg in fingerprint` — Python dict membership tests the keys. -/
def fpHasKey (fp : Fingerprint) (msg : ℕ) : Bool :=
  (List.filter (fun p => p.1 = msg) fp).length ≠ 0

/-- Modelled from the spec: `is_ecu_disconnected` from
`selfdrive/car/__init__.py` (not in src/) — the ECUPresenceDetector: "true
iff, across every fingerprint row ..., none contains any of that ECU's
expected diagnostic-response message ids".  The interface passes the single
observed bus-0 fingerprint row, so the rows here are that one map. -/
def is_ecu_disconnected (fingerprint : Fingerprint) (ecu : ℕ) : Bool :=
  (ECU_FINGERPRINT ecu).all (fun msg => !(fpHasKey fingerprint msg))

/-! ### car.CarParams data model -/

structure PidTuning where
  kpBP : List ℚ
  kiBP : List ℚ
  kpV : List ℚ
  kiV : List ℚ
  kf : ℚ
  deriving DecidableEq

/-- Capnp union member default: every field zeroed. -/
def PidTuning.default : PidTuning :=
  { kpBP := [], kiBP := [], kpV := [], kiV := [], kf := 0 }

structure LqrTuning where
  scale : ℚ
  ki : ℚ
  dcGain : ℚ
  a : List ℚ
  b : List ℚ
  c : List ℚ
  k : List ℚ
  l : List ℚ
  deriving DecidableEq

def LqrTuning.default : LqrTuning :=
  { scale := 0, ki := 0, dcGain := 0, a := [], b := [], c := [], k := [], l := [] }

/-- `ret.lateralTuning` — a capnp union over the tuning families. -/
inductive LateralTuning where
  | pid : PidTuning → LateralTuning
  | lqr : LqrTuning → LateralTuning
  deriving DecidableEq

structure LongitudinalTuning where
  deadzoneBP : List ℚ
  deadzoneV : List ℚ
  kpBP : List ℚ
  kpV : List ℚ
  kiBP : List ℚ
  kiV : List ℚ
  deriving DecidableEq

/-- The fields of `car.CarParams` that `get_params` writes and the rest of
the interface reads. -/
structure CarParams where
  carName : String
  carFingerprint : String
  carVin : String
  isPandaBlack : Bool
  safetyModel : String
  safetyParam : ℚ
  enableCruise : Bool
  steerActuatorDelay : ℚ
  lateralTuning : LateralTuning
  wheelbase : ℚ
  steerRatio : ℚ
  steerRatioRear : ℚ
  mass : ℚ
  steerRateCost : ℚ
  centerToFront : ℚ
  rotationalInertia : ℚ
  tireStiffnessFront : ℚ
  tireStiffnessRear : ℚ
  steerControlType : String
  steerMaxBP : List ℚ
  steerMaxV : List ℚ
  brakeMaxBP : List ℚ
  brakeMaxV : List ℚ
  enableCamera : Bool
  enableDsu : Bool
  enableApgs : Bool
  enableGasInterceptor : Bool
  openpilotLongitudinalControl : Bool
  minEnableSpeed : ℚ
  steerLimitAlert : Bool
  longitudinalTuning : LongitudinalTuning
  stoppingControl : Bool
  startAccel : ℚ
  gasMaxBP : List ℚ
  gasMaxV : List ℚ
  deriving DecidableEq

/-! ### CarInterface.get_params -/

/-- `CarInterface.get_params` (interface.py lines 42–139).

The Python locals `stop_and_go` and `tire_stiffness_factor` are assigned
only inside the `candidate == CAR.OLD_CAR` branch; reading them for any
other candidate raises `UnboundLocalError`, which the `Except` models.
The first such read is `tire_stiffness_factor` at the
`scale_tire_stiffness` call (line 92).

For `CAR.OLD_CAR` the code first writes pid gains (lines 69–70) and then
re-initialises the union to lqr (line 71), so those pid values are
discarded; the net lateral tuning is the lqr record. -/
def get_params (candidate : String) (fingerprint0 : Fingerprint)
    (vin : String) (has_relay : Bool) : Except String CarParams :=
  -- locals, unassigned until the OLD_CAR branch
  let stop_and_go : Option Bool := none
  let tire_stiffness_factor : Option ℚ := none
  -- capnp new_message defaults for fields the branches may leave unset
  let wheelbase : ℚ := 0
  let steerRatio : ℚ := 0
  let mass : ℚ := 0
  let safetyParam : ℚ := 0
  let lateralTuning : LateralTuning := .pid PidTuning.default
  let enableGasInterceptor0 : Bool := false
  -- pedal: enableCruise is computed from the capnp default of
  -- enableGasInterceptor (line 54), before line 108 assigns the real value
  let enableCruise : Bool := !enableGasInterceptor0
  let steerActuatorDelay : ℚ := 12 / 100
  -- if candidate not in [CAR.OLD_CAR]: init pid tuning (lines 58–60)
  let lateralTuning : LateralTuning :=
    if ¬ candidate ∈ [CAR.OLD_CAR] then
      .pid { PidTuning.default with kiBP := [0], kpBP := [0] }
    else lateralTuning
  -- if candidate == CAR.OLD_CAR (lines 62–81), one let per assignment
  let stop_and_go := if candidate = CAR.OLD_CAR then some true else stop_and_go
  let safetyParam : ℚ := if candidate = CAR.OLD_CAR then 100 else safetyParam
  let wheelbase : ℚ := if candidate = CAR.OLD_CAR then 2455 / 1000 else wheelbase
  let steerRatio : ℚ := if candidate = CAR.OLD_CAR then 17 else steerRatio
  let tire_stiffness_factor :=
    if candidate = CAR.OLD_CAR then some (444 / 1000 : ℚ) else tire_stiffness_factor
  let mass : ℚ :=
    if candidate = CAR.OLD_CAR then 6200 * CV.LB_TO_KG + STD_CARGO_KG else mass
  let lateralTuning : LateralTuning :=
    if candidate = CAR.OLD_CAR then
      LateralTuning.lqr { LqrTuning.default with
        scale := 1500
        ki := 5 / 100
        a := [0, 1, -22619643 / 100000000, 121822268 / 100000000]
        b := [-192006585 / 1000000000000, 395603032 / 10000000000000]
        c := [1, 0]
        k := [-11073572306 / 100000000, 45122718255 / 100000000]
        l := [3233671 / 10000000, 3185757 / 10000000]
        dcGain := 2237852961363602 / 1000000000000000000 }
    else lateralTuning
  let steerRateCost : ℚ := 1
  let centerToFront : ℚ := wheelbase * (5 / 10)
  let rotationalInertia := scale_rot_inertia mass wheelbase
  -- line 92: reading tire_stiffness_factor raises for unknown candidates
  match tire_stiffness_factor with
  | none => .error "UnboundLocalError: local variable tire_stiffness_factor referenced before assignment"
  | some tsf =>
  let ts := scale_tire_stiffness mass wheelbase centerToFront tsf
  let tireStiffnessFront := ts.1
  let tireStiffnessRear := ts.2
  let enableCamera :=
    is_ecu_disconnected fingerprint0 ECU.CAM || has_relay
  let enableDsu :=
    is_ecu_disconnected fingerprint0 ECU.DSU ||
      (has_relay && candidate ∈ TSS2_CAR)
  let enableApgs := false
  let enableGasInterceptor := fpHasKey fingerprint0 0x201
  let openpilotLongitudinalControl := enableCamera && enableDsu
  -- line 117: reading stop_and_go would raise for unknown candidates
  match stop_and_go with
  | none => .error "UnboundLocalError: local variable stop_and_go referenced before assignment"
  | some sng =>
  let minEnableSpeed : ℚ :=
    if sng || enableGasInterceptor then -1 else 19 * CV.MPH_TO_MS
  let longitudinalTuning : LongitudinalTuning :=
    { deadzoneBP := [0, 9]
      deadzoneV := [0, 15 / 100]
      kpBP := [0, 5, 35]
      kiBP := [0, 35]
      kpV := if enableGasInterceptor then [12 / 10, 8 / 10, 5 / 10] else [36 / 10, 24 / 10, 15 / 10]
      kiV := if enableGasInterceptor then [18 / 100, 12 / 100] else [54 / 100, 36 / 100] }
  .ok
    { carName := "other"
      carFingerprint := candidate
      carVin := vin
      isPandaBlack := has_relay
      safetyModel := "toyota"
      safetyParam := safetyParam
      enableCruise := enableCruise
      steerActuatorDelay := steerActuatorDelay
      lateralTuning := lateralTuning
      wheelbase := wheelbase
      steerRatio := steerRatio
      steerRatioRear := 0
      mass := mass
      steerRateCost := steerRateCost
      centerToFront := centerToFront
      rotationalInertia := rotationalInertia
      tireStiffnessFront := tireStiffnessFront
      tireStiffnessRear := tireStiffnessRear
      steerControlType := "torque"
      steerMaxBP := [16 * CV.KPH_TO_MS, 45 * CV.KPH_TO_MS]
      steerMaxV := [1, 1]
      brakeMaxBP := [0]
      brakeMaxV := [1]
      enableCamera := enableCamera
      enableDsu := enableDsu
      enableApgs := enableApgs
      enableGasInterceptor := enableGasInterceptor
      openpilotLongitudinalControl := openpilotLongitudinalControl
      minEnableSpeed := minEnableSpeed
      steerLimitAlert := false
      longitudinalTuning := longitudinalTuning
      stoppingControl := false
      startAccel := 0
      gasMaxBP := if enableGasInterceptor then [0, 9, 35] else [0]
      gasMaxV := if enableGasInterceptor then [2 / 10, 5 / 10, 7 / 10] else [5 / 10] }

/-! ### Events and the per-cycle state -/

/-- `EventTypes` from `selfdrive/controls/lib/drive_helpers.py` — the
severity vocabulary of the spec. -/
inductive ET where
  | ENABLE
  | PRE_ENABLE
  | NO_ENTRY
  | WARNING
  | USER_DISABLE
  | SOFT_DISABLE
  | IMMEDIATE_DISABLE
  | PERMANENT
  deriving DecidableEq

/-- A SafetyEvent: (kind, severity list). -/
structure Event where
  name : String
  types : List ET
  deriving DecidableEq

/-- Modelled from the spec: `create_event` from
`selfdrive/controls/lib/drive_helpers.py` (not in src/) — "SafetyEvent:
(kind, severity-set)". -/
def create_event (name : String) (types : List ET) : Event :=
  { name := name, types := types }

inductive ButtonType where
  | leftBlinker
  | rightBlinker
  deriving DecidableEq

structure ButtonEvent where
  type : ButtonType
  pressed : Bool
  deriving DecidableEq

inductive GearShifter where
  | park
  | drive
  | neutral
  | reverse
  | unknown
  deriving DecidableEq

/-- One cycle's decoded raw signals: the fields of `self.CS` (filled by the
external carstate decoder) that `CarInterface.update` reads, together with
the main-bus validity flag of the parser. -/
structure Snapshot where
  can_valid : Bool
  v_ego : ℚ
  v_ego_raw : ℚ
  a_ego : ℚ
  standstill : Bool
  v_wheel_fl : ℚ
  v_wheel_fr : ℚ
  v_wheel_rl : ℚ
  v_wheel_rr : ℚ
  gear_shifter : GearShifter
  car_gas : ℚ
  pedal_gas : ℚ
  user_brake : ℚ
  brake_pressed : ℤ
  brake_lights : Bool
  angle_steers : ℚ
  angle_steers_rate : ℚ
  steer_torque_driver : ℚ
  steer_torque_motor : ℚ
  steer_override : Bool
  pcm_acc_active : Bool
  pcm_acc_status : ℤ
  v_cruise_pcm : ℚ
  main_on : Bool
  left_blinker_on : ℤ
  right_blinker_on : ℤ
  door_all_closed : Bool
  seatbelt : Bool
  esp_disabled : Bool
  steer_error : Bool
  low_speed_lockout : Bool
  generic_toggle : Bool

/-- The camera-channel liveness exposed by `self.cp_cam`. -/
structure CamChannel where
  can_valid : Bool
  can_invalid_cnt : ℕ

/-- Controller intent: the commanded gas actuation read from `c`. -/
structure Control where
  actuators_gas : ℚ

structure CruiseStateOut where
  enabled : Bool
  speed : ℚ
  available : Bool
  speedOffset : ℚ
  standstill : Bool
  deriving DecidableEq

/-- The fields of the returned `car.CarState` message. (`yawRate` is left
out: it is produced by the external vehicle-dynamics model.) -/
structure CarStateOut where
  canValid : Bool
  vEgo : ℚ
  vEgoRaw : ℚ
  aEgo : ℚ
  standstill : Bool
  gearShifter : GearShifter
  gas : ℚ
  gasPressed : Bool
  brake : ℚ
  brakePressed : Bool
  brakeLights : Bool
  steeringAngle : ℚ
  steeringRate : ℚ
  steeringTorque : ℚ
  steeringTorqueEps : ℚ
  steeringPressed : Bool
  cruiseState : CruiseStateOut
  buttonEvents : List ButtonEvent
  leftBlinker : Bool
  rightBlinker : Bool
  doorOpen : Bool
  seatbeltUnlatched : Bool
  genericToggle : Bool
  events : List Event

/-- The mutable per-instance state of `CarInterface` that `update` reads and
writes: the previous-cycle pedal/cruise flags (lines 21–23, 273–275).  The
previous-cycle blinker values live in the carstate decoder
(`self.CS.prev_left_blinker_on`); that decoder is not in src/, so the
threading is modelled from the spec: "emitted only when a blinker boolean
differs from the previous cycle's value". -/
structure IfaceState where
  gas_pressed_prev : Bool
  brake_pressed_prev : Bool
  cruise_enabled_prev : Bool
  prev_left_blinker_on : ℤ
  prev_right_blinker_on : ℤ
  forwarding_camera : Bool

/-- The blinker button-event block of `update` (lines 203–214). -/
def buttonEvents_of (st : IfaceState) (CS : Snapshot) : List ButtonEvent :=
  (if CS.left_blinker_on ≠ st.prev_left_blinker_on then
    [{ type := ButtonType.leftBlinker, pressed := CS.left_blinker_on ≠ 0 }]
  else []) ++
  (if CS.right_blinker_on ≠ st.prev_right_blinker_on then
    [{ type := ButtonType.rightBlinker, pressed := CS.right_blinker_on ≠ 0 }]
  else [])

/-- `ret.gasPressed` (lines 170–174). -/
def gasPressed_of (CP : CarParams) (CS : Snapshot) : Bool :=
  if CP.enableGasInterceptor then CS.pedal_gas > 15 else CS.pedal_gas > 0

/-- `ret.brakePressed` (line 178). -/
def brakePressed_of (CS : Snapshot) : Bool :=
  CS.brake_pressed ≠ 0

/-- The safety-event block of `update` (lines 226–269), in source order. -/
def events_of (CP : CarParams) (st : IfaceState) (CS : Snapshot)
    (cam : CamChannel) (c : Control) : List Event :=
  let gasPressed := gasPressed_of CP CS
  let brakePressed := brakePressed_of CS
  let cruiseEnabled := CS.pcm_acc_active
  (if cam.can_invalid_cnt ≥ 100 ∧ CP.enableCamera then
    [create_event "invalidGiraffeToyota" [ET.PERMANENT]] else []) ++
  (if ¬ CS.gear_shifter = GearShifter.drive ∧ CP.enableDsu then
    [create_event "wrongGear" [ET.NO_ENTRY, ET.SOFT_DISABLE]] else []) ++
  (if ¬ CS.door_all_closed then
    [create_event "doorOpen" [ET.NO_ENTRY, ET.SOFT_DISABLE]] else []) ++
  (if ¬ CS.seatbelt then
    [create_event "seatbeltNotLatched" [ET.NO_ENTRY, ET.SOFT_DISABLE]] else []) ++
  (if CS.esp_disabled ∧ CP.enableDsu then
    [create_event "espDisabled" [ET.NO_ENTRY, ET.SOFT_DISABLE]] else []) ++
  (if ¬ CS.main_on ∧ CP.enableDsu then
    [create_event "wrongCarMode" [ET.NO_ENTRY, ET.USER_DISABLE]] else []) ++
  (if CS.gear_shifter = GearShifter.reverse ∧ CP.enableDsu then
    [create_event "reverseGear" [ET.NO_ENTRY, ET.IMMEDIATE_DISABLE]] else []) ++
  (if CS.steer_error then
    [create_event "steerTempUnavailable" [ET.NO_ENTRY, ET.WARNING]] else []) ++
  (if CS.low_speed_lockout ∧ CP.enableDsu then
    [create_event "lowSpeedLockout" [ET.NO_ENTRY, ET.PERMANENT]] else []) ++
  (if CS.v_ego < CP.minEnableSpeed ∧ CP.enableDsu then
    [create_event "speedTooLow" [ET.NO_ENTRY]] ++
    (if c.actuators_gas > 1 / 10 then
      [create_event "speedTooLow" [ET.IMMEDIATE_DISABLE]] else []) ++
    (if CS.v_ego < 1 / 1000 then
      [create_event "manualRestart" [ET.WARNING]] else [])
  else []) ++
  (if cruiseEnabled ∧ ¬ st.cruise_enabled_prev then
    [create_event "pcmEnable" [ET.ENABLE]]
  else if ¬ cruiseEnabled then
    [create_event "pcmDisable" [ET.USER_DISABLE]]
  else []) ++
  (if (gasPressed ∧ ¬ st.gas_pressed_prev) ∨
      (brakePressed ∧ (¬ st.brake_pressed_prev ∨ CS.v_ego > 1 / 1000)) then
    [create_event "pedalPressed" [ET.NO_ENTRY, ET.USER_DISABLE]] else []) ++
  (if gasPressed then
    [create_event "pedalPressed" [ET.PRE_ENABLE]] else [])

/-- `CarInterface.update` (lines 142–277): builds the canonical state and
the event list, then persists the previous-cycle flags. -/
def update (CP : CarParams) (st : IfaceState) (CS : Snapshot)
    (cam : CamChannel) (c : Control) : CarStateOut × IfaceState :=
  let forwarding_camera := if cam.can_valid then true else st.forwarding_camera
  let gasPressed := gasPressed_of CP CS
  let brakePressed := brakePressed_of CS
  let ret : CarStateOut :=
    { canValid := CS.can_valid
      vEgo := CS.v_ego
      vEgoRaw := CS.v_ego_raw
      aEgo := CS.a_ego
      standstill := CS.standstill
      gearShifter := CS.gear_shifter
      gas := CS.car_gas
      gasPressed := gasPressed
      brake := CS.user_brake
      brakePressed := brakePressed
      brakeLights := CS.brake_lights
      steeringAngle := CS.angle_steers
      steeringRate := CS.angle_steers_rate
      steeringTorque := CS.steer_torque_driver
      steeringTorqueEps := CS.steer_torque_motor
      steeringPressed := CS.steer_override
      cruiseState :=
        { enabled := CS.pcm_acc_active
          speed := CS.v_cruise_pcm * CV.KPH_TO_MS
          available := CS.main_on
          speedOffset := 0
          standstill :=
            if CP.carFingerprint ∈ NO_STOP_TIMER_CAR ∨ CP.enableGasInterceptor then
              false
            else CS.pcm_acc_status = 7 }
      buttonEvents := buttonEvents_of st CS
      leftBlinker := CS.left_blinker_on ≠ 0
      rightBlinker := CS.right_blinker_on ≠ 0
      doorOpen := ¬ CS.door_all_closed
      seatbeltUnlatched := ¬ CS.seatbelt
      genericToggle := CS.generic_toggle
      events := events_of CP st CS cam c }
  (ret,
   { gas_pressed_prev := gasPressed
     brake_pressed_prev := brakePressed
     cruise_enabled_prev := CS.pcm_acc_active
     prev_left_blinker_on := CS.left_blinker_on
     prev_right_blinker_on := CS.right_blinker_on
     forwarding_camera := forwarding_camera })

/-- One cycle's external inputs. -/
structure CycleInput where
  CS : Snapshot
  cam : CamChannel
  c : Control

/-- Run `update` over consecutive cycles, threading the interface state. -/
def run (CP : CarParams) (st : IfaceState) : List CycleInput → List CarStateOut
  | [] => []
  | i :: rest =>
    (update CP st i.CS i.cam i.c).1 :: run CP (update CP st i.CS i.cam i.c).2 rest

/-- Number of occurrences of the event (kind, severity list) in a cycle's
event list. -/
def countEvent (evs : List Event) (n : String) (tys : List ET) : ℕ :=
  (evs.filter (fun e => e.name = n ∧ e.types = tys)).length

/-- Number of blinker button events for one side. -/
def countButton (bes : List ButtonEvent) (t : ButtonType) : ℕ :=
  (bes.filter (fun b => b.type = t)).length

/-- The spec's phrase "the camera is expected to be real", read with the
spec's own data model, in which `enableCamera` is the camera
ECU-simulation flag: expected real means not simulated.  Stated from the
spec's words, to compare against what the code's event rule actually
gates on. -/
def cameraExpectedReal (CP : CarParams) : Bool := !CP.enableCamera

/-! ### Concrete fixtures used by the witness theorems -/

/-- The single-bus fingerprint in which the DSU's diagnostic response
(0x343) is observed. -/
def fpDsuPresent : Fingerprint := [(0x343, 8)]

/-- A concrete parameter record for exercising `update`: both ECUs
simulated, no gas interceptor, positive minimum enable speed. -/
def sampleCP : CarParams :=
  { carName := "other", carFingerprint := CAR.OLD_CAR, carVin := "",
    isPandaBlack := false, safetyModel := "toyota", safetyParam := 100,
    enableCruise := true, steerActuatorDelay := 12 / 100,
    lateralTuning := .pid PidTuning.default, wheelbase := 2455 / 1000,
    steerRatio := 17, steerRatioRear := 0, mass := 1000, steerRateCost := 1,
    centerToFront := 2455 / 2000, rotationalInertia := 1,
    tireStiffnessFront := 1, tireStiffnessRear := 1,
    steerControlType := "torque", steerMaxBP := [], steerMaxV := [],
    brakeMaxBP := [0], brakeMaxV := [1], enableCamera := true,
    enableDsu := true, enableApgs := false, enableGasInterceptor := false,
    openpilotLongitudinalControl := true, minEnableSpeed := 5,
    steerLimitAlert := false,
    longitudinalTuning :=
      { deadzoneBP := [0, 9], deadzoneV := [0, 15 / 100], kpBP := [0, 5, 35],
        kpV := [36 / 10, 24 / 10, 15 / 10], kiBP := [0, 35],
        kiV := [54 / 100, 36 / 100] },
    stoppingControl := false, startAccel := 0, gasMaxBP := [0],
    gasMaxV := [1 / 2] }

/-- A concrete quiescent snapshot: in drive, moving at 10 m/s, nothing
pressed, cruise inactive. -/
def sampleCS : Snapshot :=
  { can_valid := true, v_ego := 10, v_ego_raw := 10, a_ego := 0,
    standstill := false, v_wheel_fl := 10, v_wheel_fr := 10, v_wheel_rl := 10,
    v_wheel_rr := 10, gear_shifter := .drive, car_gas := 0, pedal_gas := 0,
    user_brake := 0, brake_pressed := 0, brake_lights := false,
    angle_steers := 0, angle_steers_rate := 0, steer_torque_driver := 0,
    steer_torque_motor := 0, steer_override := false, pcm_acc_active := false,
    pcm_acc_status := 0, v_cruise_pcm := 50, main_on := true,
    left_blinker_on := 0, right_blinker_on := 0, door_all_closed := true,
    seatbelt := true, esp_disabled := false, steer_error := false,
    low_speed_lockout := false, generic_toggle := false }

/-- A concrete interface state with all previous-cycle flags cleared. -/
def sampleState : IfaceState :=
  { gas_pressed_prev := false, brake_pressed_prev := false,
    cruise_enabled_prev := false, prev_left_blinker_on := 0,
    prev_right_blinker_on := 0, forwarding_camera := false }

/-- A live camera channel. -/
def sampleCam : CamChannel := { can_valid := true, can_invalid_cnt := 0 }

/-- No commanded gas. -/
def sampleControl : Control := { actuators_gas := 0 }

/-- The single-bus fingerprint containing the gas-interceptor message id
0x201. -/
def fpInterceptor : Fingerprint := [(0x201, 6)]

/-- The quiescent snapshot at standstill (below any positive minimum
enable speed). -/
def csSlow : Snapshot := { sampleCS with v_ego := 0, v_ego_raw := 0 }

/-- The quiescent snapshot with the PCM cruise active. -/
def csCruiseOn : Snapshot := { sampleCS with pcm_acc_active := true }

/-- The quiescent snapshot with the left blinker on. -/
def csBlinkOn : Snapshot := { sampleCS with left_blinker_on := 1 }

/-- Commanded gas above the 0.1 cancellation margin. -/
def gasControl : Control := { actuators_gas := 2 / 10 }

/-- Three consecutive cycles with the cruise inactive. -/
def insOff : List CycleInput :=
  List.replicate 3 { CS := sampleCS, cam := sampleCam, c := sampleControl }

/-- Three consecutive cycles with the left blinker held on. -/
def insBlink : List CycleInput :=
  List.replicate 3 { CS := csBlinkOn, cam := sampleCam, c := sampleControl }

/-! ### Counting helper lemmas -/

@[simp]
theorem countEvent_nil (n : String) (tys : List ET) : countEvent [] n tys = 0 := rfl

@[simp]
theorem countEvent_append (a b : List Event) (n : String) (tys : List ET) :
    countEvent (a ++ b) n tys = countEvent a n tys + countEvent b n tys := by
  simp [countEvent, List.filter_append]

@[simp]
theorem countEvent_ite (P : Prop) [Decidable P] (l1 l2 : List Event) (n : String)
    (tys : List ET) :
    countEvent (if P then l1 else l2) n tys =
      if P then countEvent l1 n tys else countEvent l2 n tys := by
  split <;> rfl

@[simp]
theorem countEvent_singleton (e : Event) (n : String) (tys : List ET) :
    countEvent [e] n tys = if e.name = n ∧ e.types = tys then 1 else 0 := by
  by_cases h : e.name = n ∧ e.types = tys <;>
    simp [countEvent, List.filter, h]

@[simp]
theorem countEvent_cons (e : Event) (l : List Event) (n : String) (tys : List ET) :
    countEvent (e :: l) n tys =
      (if e.name = n ∧ e.types = tys then 1 else 0) + countEvent l n tys := by
  by_cases h : e.name = n ∧ e.types = tys <;>
    simp [countEvent, List.filter, h, Nat.add_comm]

@[simp]
theorem countButton_nil (t : ButtonType) : countButton [] t = 0 := rfl

@[simp]
theorem countButton_append (a b : List ButtonEvent) (t : ButtonType) :
    countButton (a ++ b) t = countButton a t + countButton b t := by
  simp [countButton, List.filter_append]

@[simp]
theorem countButton_ite (P : Prop) [Decidable P] (l1 l2 : List ButtonEvent)
    (t : ButtonType) :
    countButton (if P then l1 else l2) t =
      if P then countButton l1 t else countButton l2 t := by
  split <;> rfl

@[simp]
theorem countButton_singleton (b : ButtonEvent) (t : ButtonType) :
    countButton [b] t = if b.type = t then 1 else 0 := by
  by_cases h : b.type = t <;> simp [countButton, List.filter, h]

@[simp]
theorem countButton_cons (b : ButtonEvent) (l : List ButtonEvent) (t : ButtonType) :
    countButton (b :: l) t = (if b.type = t then 1 else 0) + countButton l t := by
  by_cases h : b.type = t <;> simp [countButton, List.filter, h, Nat.add_comm]

/-! ### Single-cycle helper lemmas about the event engine -/

/-- On a cycle with the PCM cruise inactive, exactly one disengage-request
and no engage-request is emitted. -/
theorem update_pcm_inactive (CP : CarParams) (st : IfaceState) (CS : Snapshot)
    (cam : CamChannel) (c : Control) (h : CS.pcm_acc_active = false) :
    countEvent ((update CP st CS cam c).1.events) "pcmDisable" [ET.USER_DISABLE] = 1 ∧
    countEvent ((update CP st CS cam c).1.events) "pcmEnable" [ET.ENABLE] = 0 := by
  simp +decide [update, events_of, create_event, h]

/-- Over any run of cycles in which the cruise stays inactive, every cycle
emits exactly one disengage-request and no engage-request, so the total
equals the number of cycles. -/
theorem run_pcmDisable (CP : CarParams) :
    ∀ (ins : List CycleInput) (st : IfaceState),
      (∀ i ∈ ins, i.CS.pcm_acc_active = false) →
      (∀ r ∈ run CP st ins,
        countEvent r.events "pcmDisable" [ET.USER_DISABLE] = 1 ∧
        countEvent r.events "pcmEnable" [ET.ENABLE] = 0) ∧
      ((run CP st ins).map
        (fun r => countEvent r.events "pcmDisable" [ET.USER_DISABLE])).sum = ins.length := by
  intro ins
  induction ins with
  | nil => intro st _; simp [run]
  | cons i rest ih =>
    intro st h
    have hi : i.CS.pcm_acc_active = false := h i (by simp)
    have hrest := ih (update CP st i.CS i.cam i.c).2
      (fun j hj => h j (by simp [hj]))
    have hc := update_pcm_inactive CP st i.CS i.cam i.c hi
    constructor
    · intro r hr
      rw [run, List.mem_cons] at hr
      rcases hr with hr | hr
      · exact hr ▸ hc
      · exact hrest.1 r hr
    · rw [run]
      simp only [List.map_cons, List.sum_cons, hrest.2, hc.1, List.length_cons]
      omega

/-- Once the carried blinker values agree with a constant input stream, no
cycle of the run emits any blinker button event. -/
theorem run_no_blinker_events (CP : CarParams) (L R : ℤ) :
    ∀ (ins : List CycleInput) (st : IfaceState),
      st.prev_left_blinker_on = L → st.prev_right_blinker_on = R →
      (∀ i ∈ ins, i.CS.left_blinker_on = L ∧ i.CS.right_blinker_on = R) →
      ∀ r ∈ run CP st ins, r.buttonEvents = [] := by
  intro ins
  induction ins with
  | nil => intro st _ _ _ r hr; simp [run] at hr
  | cons i rest ih =>
    intro st hL hR h r hr
    have hi := h i (by simp)
    rw [run, List.mem_cons] at hr
    rcases hr with hr | hr
    · subst hr
      simp [update, buttonEvents_of, hi.1, hi.2, hL, hR]
    · exact ih (update CP st i.CS i.cam i.c).2
        (by simp [update, hi.1]) (by simp [update, hi.2])
        (fun j hj => h j (by simp [hj])) r hr

/-! ### Claim theorems: parameter derivation -/

/-- Claim C1: for every vehicle identity that is not a member of the
enumerated registry (not OLD_CAR), `get_params` fails with a surfaced
error — the read of the never-assigned local `tire_stiffness_factor` —
and never returns a defaulted parameter record. -/
theorem get_params_unknown_identity_errors (candidate : String)
    (fp : Fingerprint) (vin : String) (relay : Bool)
    (h : candidate ≠ CAR.OLD_CAR) :
    get_params candidate fp vin relay =
      .error "UnboundLocalError: local variable tire_stiffness_factor referenced before assignment" := by
  simp [get_params, h]

/-- Witness for C1: the concrete unknown identity "FUTURE_CAR" is rejected. -/
theorem get_params_unknown_identity_errors_witness :
    "FUTURE_CAR" ≠ CAR.OLD_CAR ∧
    get_params "FUTURE_CAR" [] "" false =
      .error "UnboundLocalError: local variable tire_stiffness_factor referenced before assignment" :=
  ⟨by decide, get_params_unknown_identity_errors "FUTURE_CAR" [] "" false (by decide)⟩

/-- Counterexample to claim C2 as stated: with the relay flag true and a
fingerprint in which the DSU's diagnostic id 0x343 is observed, the
returned parameters have `enableDsu = false` — the relay flag does not
force the DSU to be treated as simulated. -/
theorem relay_flag_dsu_counterexample :
    (get_params CAR.OLD_CAR fpDsuPresent "" true).map CarParams.isPandaBlack =
      Except.ok true ∧
    (get_params CAR.OLD_CAR fpDsuPresent "" true).map CarParams.enableCamera =
      Except.ok true ∧
    (get_params CAR.OLD_CAR fpDsuPresent "" true).map CarParams.enableDsu =
      Except.ok false := by
  refine ⟨rfl, rfl, rfl⟩

/-- Claim C2 (amended): the relay flag forces `enableCamera = true`, but
`enableDsu` is forced only for candidates in `TSS2_CAR`, which is empty,
so `enableDsu` always equals the ECU-presence detector's result and is
unaffected by the relay flag. -/
theorem relay_forces_camera_only (candidate : String) (fp : Fingerprint)
    (vin : String) (relay : Bool) (p : CarParams)
    (h : get_params candidate fp vin relay = .ok p) :
    (relay = true → p.enableCamera = true) ∧
    p.enableDsu = is_ecu_disconnected fp ECU.DSU := by
  by_cases hc : candidate = CAR.OLD_CAR
  · simp [get_params, hc, TSS2_CAR] at h
    rw [← h]
    constructor
    · intro hr; simp [hr]
    · simp
  · rw [get_params_unknown_identity_errors candidate fp vin relay hc] at h
    exact absurd h (by simp)

/-- Witness for the amended C2, at the concrete fingerprint containing the
DSU's diagnostic id. -/
theorem relay_forces_camera_only_witness :
    (get_params CAR.OLD_CAR fpDsuPresent "" true).map CarParams.enableCamera =
      Except.ok true ∧
    (get_params CAR.OLD_CAR fpDsuPresent "" true).map CarParams.enableDsu =
      Except.ok (is_ecu_disconnected fpDsuPresent ECU.DSU) := by
  cases e : get_params CAR.OLD_CAR fpDsuPresent "" true with
  | error msg =>
    have hok : (get_params CAR.OLD_CAR fpDsuPresent "" true).isOk = true := by decide
    rw [e] at hok
    exact absurd hok (by simp [Except.isOk, Except.toBool])
  | ok p =>
    have h := relay_forces_camera_only CAR.OLD_CAR fpDsuPresent "" true p e
    simp [Except.map, h.1 rfl, h.2]

/-- Claim C9: for the reference identity OLD_CAR (stop-and-go capable)
with a fingerprint not containing the interceptor message id 0x201,
`get_params` returns `minEnableSpeed = -1`, gas limit curve `[0.5]` at
breakpoints `[0]`, and longitudinal proportional gains `[3.6, 2.4, 1.5]`. -/
theorem reference_vehicle_params (fp : Fingerprint) (vin : String)
    (relay : Bool) (h : fpHasKey fp 0x201 = false) :
    (get_params CAR.OLD_CAR fp vin relay).map
        (fun p => (p.minEnableSpeed, p.gasMaxBP, p.gasMaxV, p.longitudinalTuning.kpV)) =
      Except.ok (-1, [0], [1 / 2], [18 / 5, 12 / 5, 3 / 2]) := by
  simp [get_params, h, Except.map]
  norm_num

/-- Witness for C9, at the empty fingerprint. -/
theorem reference_vehicle_params_witness :
    fpHasKey ([] : Fingerprint) 0x201 = false ∧
    (get_params CAR.OLD_CAR [] "" false).map
        (fun p => (p.minEnableSpeed, p.gasMaxBP, p.gasMaxV, p.longitudinalTuning.kpV)) =
      Except.ok (-1, [0], [1 / 2], [18 / 5, 12 / 5, 3 / 2]) :=
  ⟨rfl, reference_vehicle_params [] "" false rfl⟩

/-- Claim C10: every parameter record `get_params` returns has
`enableCruise = true`, including when the gas interceptor is detected,
because `enableCruise` is computed from the default (false) value of
`enableGasInterceptor` before the detection assigns it. -/
theorem enable_cruise_always_true (candidate : String) (fp : Fingerprint)
    (vin : String) (relay : Bool) (p : CarParams)
    (h : get_params candidate fp vin relay = .ok p) :
    p.enableCruise = true := by
  by_cases hc : candidate = CAR.OLD_CAR
  · simp [get_params, hc] at h
    rw [← h]
  · rw [get_params_unknown_identity_errors candidate fp vin relay hc] at h
    exact absurd h (by simp)

/-- Witness for C10: with the interceptor message id in the fingerprint the
interceptor is detected, and `enableCruise` is still true. -/
theorem enable_cruise_always_true_witness :
    (get_params CAR.OLD_CAR fpInterceptor "" false).map CarParams.enableGasInterceptor =
      Except.ok true ∧
    (get_params CAR.OLD_CAR fpInterceptor "" false).map CarParams.enableCruise =
      Except.ok true := by
  refine ⟨rfl, ?_⟩
  cases e : get_params CAR.OLD_CAR fpInterceptor "" false with
  | error msg =>
    have hok : (get_params CAR.OLD_CAR fpInterceptor "" false).isOk = true := by decide
    rw [e] at hok
    exact absurd hok (by simp [Except.isOk, Except.toBool])
  | ok p =>
    have h := enable_cruise_always_true CAR.OLD_CAR fpInterceptor "" false p e
    simp [Except.map, h]

/-! ### Claim theorems: the per-cycle safety-event engine -/

/-- Claim C3: with speed below `minEnableSpeed` and the DSU simulated, a
speed-too-low NO_ENTRY event is emitted exactly once; the additional
speed-too-low IMMEDIATE_DISABLE fires iff commanded gas exceeds 0.1; the
manual-restart WARNING fires iff speed is below 0.001; and, in any cycle
whatsoever, the IMMEDIATE_DISABLE speed-too-low never appears without the
base NO_ENTRY one. -/
theorem speed_too_low_rule (CP : CarParams) (st : IfaceState) (CS : Snapshot)
    (cam : CamChannel) (c : Control) :
    (CS.v_ego < CP.minEnableSpeed → CP.enableDsu = true →
      countEvent ((update CP st CS cam c).1.events) "speedTooLow" [ET.NO_ENTRY] = 1 ∧
      countEvent ((update CP st CS cam c).1.events) "speedTooLow" [ET.IMMEDIATE_DISABLE] =
        (if c.actuators_gas > 1 / 10 then 1 else 0) ∧
      countEvent ((update CP st CS cam c).1.events) "manualRestart" [ET.WARNING] =
        (if CS.v_ego < 1 / 1000 then 1 else 0)) ∧
    (1 ≤ countEvent ((update CP st CS cam c).1.events) "speedTooLow" [ET.IMMEDIATE_DISABLE] →
      1 ≤ countEvent ((update CP st CS cam c).1.events) "speedTooLow" [ET.NO_ENTRY]) := by
  constructor
  · intro h1 h2
    simp +decide [update, events_of, create_event, h1, h2]
  · intro h
    simp +decide [update, events_of, create_event] at h ⊢
    split at h <;> simp_all

/-- Witness for C3: at standstill with 0.2 commanded gas, all three events
fire once. -/
theorem speed_too_low_rule_witness :
    csSlow.v_ego < sampleCP.minEnableSpeed ∧ sampleCP.enableDsu = true ∧
    countEvent ((update sampleCP sampleState csSlow sampleCam gasControl).1.events)
      "speedTooLow" [ET.NO_ENTRY] = 1 ∧
    countEvent ((update sampleCP sampleState csSlow sampleCam gasControl).1.events)
      "speedTooLow" [ET.IMMEDIATE_DISABLE] = 1 ∧
    countEvent ((update sampleCP sampleState csSlow sampleCam gasControl).1.events)
      "manualRestart" [ET.WARNING] = 1 := by
  have h := (speed_too_low_rule sampleCP sampleState csSlow sampleCam gasControl).1
    (by decide) rfl
  refine ⟨by decide, rfl, h.1, ?_, ?_⟩
  · have h2 := h.2.1
    rwa [if_pos (show gasControl.actuators_gas > 1 / 10 by norm_num [gasControl])] at h2
  · have h3 := h.2.2
    rwa [if_pos (show csSlow.v_ego < 1 / 1000 by norm_num [csSlow])] at h3

/-- Counterexample to claim C4 as stated: with the camera expected real
(simulation flag off, so `cameraExpectedReal` holds) and the invalid
counter at 100, the camera-link-lost PERMANENT event is NOT emitted —
the code gates the event on `enableCamera`, the camera-simulation flag,
not on the camera being expected real. -/
theorem camera_link_lost_counterexample :
    cameraExpectedReal { sampleCP with enableCamera := false } = true ∧
    (100 : ℕ) ≥ 100 ∧
    countEvent ((update { sampleCP with enableCamera := false } sampleState sampleCS
        { sampleCam with can_invalid_cnt := 100 } sampleControl).1.events)
      "invalidGiraffeToyota" [ET.PERMANENT] = 0 := by
  refine ⟨rfl, le_refl _, ?_⟩
  decide

/-- Claim C4 (amended): the camera-link-lost PERMANENT event is emitted
(exactly once) iff the camera-channel consecutive-invalid counter is at
least 100 AND the camera-simulation flag `enableCamera` is set; in
particular at counter 100 with the flag set it fires and at 99 it does
not. -/
theorem camera_link_lost_rule (CP : CarParams) (st : IfaceState) (CS : Snapshot)
    (cam : CamChannel) (c : Control) :
    countEvent ((update CP st CS cam c).1.events) "invalidGiraffeToyota" [ET.PERMANENT] =
      if cam.can_invalid_cnt ≥ 100 ∧ CP.enableCamera = true then 1 else 0 := by
  simp +decide [update, events_of, create_event]

/-- Claim C5: the driver-override event with severities
NO_ENTRY, USER_DISABLE is emitted — exactly once — iff the gas-pressed
flag has a rising edge, or the brake-pressed flag has a rising edge, or
the brake is pressed while speed exceeds 0.001. -/
theorem driver_override_rule (CP : CarParams) (st : IfaceState) (CS : Snapshot)
    (cam : CamChannel) (c : Control) :
    countEvent ((update CP st CS cam c).1.events) "pedalPressed" [ET.NO_ENTRY, ET.USER_DISABLE] =
      if ((update CP st CS cam c).1.gasPressed = true ∧ st.gas_pressed_prev = false) ∨
         ((update CP st CS cam c).1.brakePressed = true ∧ st.brake_pressed_prev = false) ∨
         ((update CP st CS cam c).1.brakePressed = true ∧ CS.v_ego > 1 / 1000) then 1 else 0 := by
  simp +decide [update, events_of, create_event, and_or_left]

/-- Claim C6: a false-to-true cruise transition emits exactly one
engage-request ENABLE and no disengage-request; K consecutive cycles with
the cruise inactive emit exactly one disengage-request USER_DISABLE each,
K in total; engage-request and disengage-request never co-occur. -/
theorem engage_disengage_rule :
    (∀ (CP : CarParams) (st : IfaceState) (CS : Snapshot) (cam : CamChannel) (c : Control),
      CS.pcm_acc_active = true → st.cruise_enabled_prev = false →
      countEvent ((update CP st CS cam c).1.events) "pcmEnable" [ET.ENABLE] = 1 ∧
      countEvent ((update CP st CS cam c).1.events) "pcmDisable" [ET.USER_DISABLE] = 0) ∧
    (∀ (CP : CarParams) (st : IfaceState) (ins : List CycleInput),
      (∀ i ∈ ins, i.CS.pcm_acc_active = false) →
      (∀ r ∈ run CP st ins,
        countEvent r.events "pcmDisable" [ET.USER_DISABLE] = 1 ∧
        countEvent r.events "pcmEnable" [ET.ENABLE] = 0) ∧
      ((run CP st ins).map
        (fun r => countEvent r.events "pcmDisable" [ET.USER_DISABLE])).sum = ins.length) ∧
    (∀ (CP : CarParams) (st : IfaceState) (CS : Snapshot) (cam : CamChannel) (c : Control),
      countEvent ((update CP st CS cam c).1.events) "pcmEnable" [ET.ENABLE] = 0 ∨
      countEvent ((update CP st CS cam c).1.events) "pcmDisable" [ET.USER_DISABLE] = 0) := by
  refine ⟨?_, ?_, ?_⟩
  · intro CP st CS cam c h1 h2
    simp +decide [update, events_of, create_event, h1, h2]
  · intro CP st ins h
    exact run_pcmDisable CP ins st h
  · intro CP st CS cam c
    by_cases h : CS.pcm_acc_active = true
    · by_cases h2 : st.cruise_enabled_prev = true <;>
        simp +decide [update, events_of, create_event, h, h2]
    · simp only [Bool.not_eq_true] at h
      exact Or.inl (update_pcm_inactive CP st CS cam c h).2

/-- Witness for C6: engaging from disabled emits one ENABLE, and three
disabled cycles emit three USER_DISABLE disengage-requests. -/
theorem engage_disengage_rule_witness :
    csCruiseOn.pcm_acc_active = true ∧ sampleState.cruise_enabled_prev = false ∧
    countEvent ((update sampleCP sampleState csCruiseOn sampleCam sampleControl).1.events)
      "pcmEnable" [ET.ENABLE] = 1 ∧
    countEvent ((update sampleCP sampleState csCruiseOn sampleCam sampleControl).1.events)
      "pcmDisable" [ET.USER_DISABLE] = 0 ∧
    ((run sampleCP sampleState insOff).map
      (fun r => countEvent r.events "pcmDisable" [ET.USER_DISABLE])).sum = 3 := by
  have h1 := engage_disengage_rule.1 sampleCP sampleState csCruiseOn sampleCam
    sampleControl rfl rfl
  have h2 := (engage_disengage_rule.2.1 sampleCP sampleState insOff (by decide)).2
  refine ⟨rfl, rfl, h1.1, h1.2, ?_⟩
  simpa [insOff] using h2

/-- Claim C7: the gas-pressed flag has an exact strict threshold — with
the interceptor present, true iff the raw pedal value exceeds 15 (false
at exactly 15); without it, true iff the raw pedal value exceeds 0. -/
theorem gas_pressed_threshold (CP : CarParams) (st : IfaceState) (CS : Snapshot)
    (cam : CamChannel) (c : Control) :
    (update CP st CS cam c).1.gasPressed = true ↔
      (CP.enableGasInterceptor = true ∧ CS.pedal_gas > 15) ∨
      (CP.enableGasInterceptor = false ∧ CS.pedal_gas > 0) := by
  cases hI : CP.enableGasInterceptor <;> simp [update, gasPressed_of, hI]

/-- Claim C8: a blinker button event for a side is emitted — exactly once
— iff that side's blinker value differs from the previous cycle's; its
`pressed` field carries the new boolean; and over consecutive cycles with
unchanged blinker values, every cycle after the first emits no blinker
events at all. -/
theorem blinker_button_rule :
    (∀ (CP : CarParams) (st : IfaceState) (CS : Snapshot) (cam : CamChannel) (c : Control),
      countButton ((update CP st CS cam c).1.buttonEvents) ButtonType.leftBlinker =
        (if CS.left_blinker_on ≠ st.prev_left_blinker_on then 1 else 0) ∧
      countButton ((update CP st CS cam c).1.buttonEvents) ButtonType.rightBlinker =
        (if CS.right_blinker_on ≠ st.prev_right_blinker_on then 1 else 0) ∧
      ∀ b ∈ (update CP st CS cam c).1.buttonEvents,
        (b.type = ButtonType.leftBlinker → (b.pressed = true ↔ CS.left_blinker_on ≠ 0)) ∧
        (b.type = ButtonType.rightBlinker → (b.pressed = true ↔ CS.right_blinker_on ≠ 0))) ∧
    (∀ (CP : CarParams) (ins : List CycleInput) (st : IfaceState) (L R : ℤ),
      (∀ i ∈ ins, i.CS.left_blinker_on = L ∧ i.CS.right_blinker_on = R) →
      ∀ r ∈ (run CP st ins).drop 1, r.buttonEvents = []) := by
  constructor
  · intro CP st CS cam c
    by_cases hL : CS.left_blinker_on = st.prev_left_blinker_on <;>
      by_cases hR : CS.right_blinker_on = st.prev_right_blinker_on <;>
        simp +decide [update, buttonEvents_of, hL, hR]
  · intro CP ins st L R h r hr
    cases ins with
    | nil => simp [run] at hr
    | cons i rest =>
      rw [run] at hr
      simp only [List.drop_succ_cons, List.drop_zero] at hr
      have hi := h i (by simp)
      exact run_no_blinker_events CP L R rest (update CP st i.CS i.cam i.c).2
        (by simp [update, hi.1]) (by simp [update, hi.2])
        (fun j hj => h j (by simp [hj])) r hr

/-- Witness for C8: three cycles with the left blinker held on — every
cycle after the first emits no blinker button events. -/
theorem blinker_button_rule_witness :
    (((run sampleCP sampleState insBlink).drop 1).map CarStateOut.buttonEvents).all
      List.isEmpty = true := by
  have h := blinker_button_rule.2 sampleCP insBlink sampleState 1 0 (by decide)
  simp only [List.all_eq_true, List.mem_map]
  rintro x ⟨r, hr, rfl⟩
  simp [h r hr]
